import Mathlib

/-!
Verification development for the voice-assistant front-end's message-content
resolver, diagnostic panel parser/formatter, fetch handlers and session
lifecycle guard.

The embedding follows the TypeScript source:
  * `src/components/session-view.tsx` (remote-fetch variant of the session view),
  * `src/unnamed/part_000` (local-parse variant of the session view),
  * `src/components/livekit/text-output-panel.tsx` (panel parser and formatter),
  * `src/hooks/useConnectionDetails.ts` (connection-details fetch).

JavaScript JSON values are modelled by the inductive `Json`; `JSON.parse` is
modelled by the executable recursive-descent parser `Json.parse` and
`JSON.stringify` by `Json.stringify`.  Numbers are carried as their source
lexeme (none of the verified code compares or re-serializes numeric values,
and truthiness of a JSON number only depends on whether it denotes zero,
which is decidable on the lexeme).  `\uXXXX` escapes denoting surrogate
halves are rejected by the model (Lean strings hold Unicode scalars); no
verified property involves them.
-/

/-- JavaScript JSON values (result of a successful `JSON.parse`). -/
inductive Json where
  | null
  | bool (b : Bool)
  | num (lexeme : String)
  | str (s : String)
  | arr (elems : List Json)
  | obj (fields : List (String × Json))

/-- JSON whitespace accepted by `JSON.parse` between tokens. -/
def jsonWs (c : Char) : Bool :=
  " \t\n\r".data.contains c

def skipWs (cs : List Char) : List Char :=
  cs.dropWhile jsonWs

def hexVal (c : Char) : Option Nat :=
  let n := c.toNat
  if 48 ≤ n ∧ n ≤ 57 then some (n - 48)
  else if 97 ≤ n ∧ n ≤ 102 then some (n - 87)
  else if 65 ≤ n ∧ n ≤ 70 then some (n - 55)
  else none

def parseHex4 (cs : List Char) : Option (Nat × List Char) :=
  match cs with
  | a :: b :: c :: d :: rest =>
    match hexVal a, hexVal b, hexVal c, hexVal d with
    | some x, some y, some z, some w => some (x * 4096 + y * 256 + z * 16 + w, rest)
    | _, _, _, _ => none
  | _ => none

/-- Body of a JSON string literal, after the opening quote: returns the decoded
characters and the input remaining after the closing quote. -/
def parseStringBody (fuel : Nat) (cs : List Char) (acc : List Char) :
    Option (List Char × List Char) :=
  match fuel, cs with
  | 0, _ => none
  | _ + 1, [] => none
  | f + 1, c :: rest =>
    if c = '"' then some (acc.reverse, rest)
    else if c = '\\' then
      match rest with
      | [] => none
      | e :: rest' =>
        if e = '"' then parseStringBody f rest' ('"' :: acc)
        else if e = '\\' then parseStringBody f rest' ('\\' :: acc)
        else if e = '/' then parseStringBody f rest' ('/' :: acc)
        else if e = 'b' then parseStringBody f rest' ('\x08' :: acc)
        else if e = 'f' then parseStringBody f rest' ('\x0c' :: acc)
        else if e = 'n' then parseStringBody f rest' ('\n' :: acc)
        else if e = 'r' then parseStringBody f rest' ('\r' :: acc)
        else if e = 't' then parseStringBody f rest' ('\t' :: acc)
        else if e = 'u' then
          match parseHex4 rest' with
          | some (n, rest'') =>
            if n < 0xd800 ∨ 0xdfff < n then
              parseStringBody f rest'' (Char.ofNat n :: acc)
            else none
          | none => none
        else none
    else if c.toNat < 0x20 then none
    else parseStringBody f rest (c :: acc)

/-- Lexes a JSON number `-?(0|[1-9][0-9]*)(\.[0-9]+)?([eE][+-]?[0-9]+)?`,
returning its lexeme. -/
def parseNumber (cs : List Char) : Option (String × List Char) :=
  let (sign, cs1) : List Char × List Char :=
    match cs with
    | '-' :: rest => (['-'], rest)
    | _ => ([], cs)
  match cs1 with
  | [] => none
  | d :: _ =>
    if ¬ d.isDigit then none
    else
      let (intPart, cs2) : List Char × List Char :=
        if d = '0' then (['0'], cs1.drop 1)
        else (cs1.takeWhile Char.isDigit, cs1.dropWhile Char.isDigit)
      let (fracPart, cs3) : List Char × List Char :=
        match cs2 with
        | '.' :: rest =>
          let ds := rest.takeWhile Char.isDigit
          if ds.isEmpty then ([], cs2)
          else ('.' :: ds, rest.dropWhile Char.isDigit)
        | _ => ([], cs2)
      if fracPart.isEmpty ∧ cs2.head? = some '.' then none
      else
        match cs3 with
        | e :: rest =>
          if e = 'e' ∨ e = 'E' then
            let (esign, rest2) : List Char × List Char :=
              match rest with
              | '+' :: r => (['+'], r)
              | '-' :: r => (['-'], r)
              | _ => ([], rest)
            let ds := rest2.takeWhile Char.isDigit
            if ds.isEmpty then none
            else
              some (String.mk (sign ++ intPart ++ fracPart ++ [e] ++ esign ++ ds),
                rest2.dropWhile Char.isDigit)
          else some (String.mk (sign ++ intPart ++ fracPart), cs3)
        | [] => some (String.mk (sign ++ intPart ++ fracPart), cs3)

/-- `JSON.parse` keeps the insertion position of a duplicated key and the last
value written to it. -/
def insertField (fields : List (String × Json)) (k : String) (v : Json) :
    List (String × Json) :=
  match fields with
  | [] => [(k, v)]
  | (k', v') :: rest =>
    if k' = k then (k', v) :: rest else (k', v') :: insertField rest k v

mutual

/-- One JSON value (leading whitespace allowed), fuelled recursive descent. -/
def parseValue (fuel : Nat) (cs0 : List Char) : Option (Json × List Char) :=
  match fuel with
  | 0 => none
  | f + 1 =>
    let cs := skipWs cs0
    match cs with
    | [] => none
    | c :: rest =>
      if c = '"' then
        match parseStringBody (rest.length + 1) rest [] with
        | some (chars, rem) => some (.str (String.mk chars), rem)
        | none => none
      else if c = '\x7b' then parseObjFields f rest []
      else if c = '[' then parseArrElems f rest []
      else if ['t', 'r', 'u', 'e'].isPrefixOf cs then some (.bool true, cs.drop 4)
      else if ['f', 'a', 'l', 's', 'e'].isPrefixOf cs then some (.bool false, cs.drop 5)
      else if ['n', 'u', 'l', 'l'].isPrefixOf cs then some (.null, cs.drop 4)
      else
        match parseNumber cs with
        | some (lex, rem) => some (.num lex, rem)
        | none => none

/-- Array elements after `[` (or after a `,`); `acc` holds earlier elements. -/
def parseArrElems (fuel : Nat) (cs0 : List Char) (acc : List Json) :
    Option (Json × List Char) :=
  match fuel with
  | 0 => none
  | f + 1 =>
    let cs := skipWs cs0
    match cs with
    | ']' :: rest =>
      if acc.isEmpty then some (.arr [], rest) else none
    | _ =>
      match parseValue f cs with
      | some (v, rem) =>
        match skipWs rem with
        | ',' :: rem' => parseArrElems f rem' (acc ++ [v])
        | ']' :: rem' => some (.arr (acc ++ [v]), rem')
        | _ => none
      | none => none

/-- Object members after the opening brace (or after a `,`). -/
def parseObjFields (fuel : Nat) (cs0 : List Char) (acc : List (String × Json)) :
    Option (Json × List Char) :=
  match fuel with
  | 0 => none
  | f + 1 =>
    let cs := skipWs cs0
    match cs with
    | '\x7d' :: rest =>
      if acc.isEmpty then some (.obj [], rest) else none
    | '"' :: rest =>
      match parseStringBody (rest.length + 1) rest [] with
      | some (kcs, rem) =>
        match skipWs rem with
        | ':' :: rem2 =>
          match parseValue f rem2 with
          | some (v, rem3) =>
            let acc' := insertField acc (String.mk kcs) v
            match skipWs rem3 with
            | ',' :: rem4 => parseObjFields f rem4 acc'
            | '\x7d' :: rem4 => some (.obj acc', rem4)
            | _ => none
          | none => none
        | _ => none
      | none => none
    | _ => none

end

/-- Model of `JSON.parse`: `none` is a thrown `SyntaxError`. -/
def Json.parse (s : String) : Option Json :=
  match parseValue (s.length + 2) s.data with
  | some (v, rest) => if (skipWs rest).isEmpty then some v else none
  | none => none

def hexDigit (n : Nat) : Char :=
  Char.ofNat (if n < 10 then 48 + n else 87 + n)

/-- `JSON.stringify` escaping for one character of a string. -/
def escapeChar (c : Char) : List Char :=
  if c = '"' then ['\\', '"']
  else if c = '\\' then ['\\', '\\']
  else if c = '\x08' then ['\\', 'b']
  else if c = '\x0c' then ['\\', 'f']
  else if c = '\n' then ['\\', 'n']
  else if c = '\r' then ['\\', 'r']
  else if c = '\t' then ['\\', 't']
  else if c.toNat < 0x20 then
    "\\u00".data ++ [hexDigit (c.toNat / 16), hexDigit (c.toNat % 16)]
  else [c]

def quoteString (s : String) : List Char :=
  '"' :: (s.data.map escapeChar).flatten ++ ['"']

def joinComma (parts : List (List Char)) : List Char :=
  List.intercalate [','] parts

mutual

/-- Model of `JSON.stringify` (no indentation), on characters. -/
def stringifyVal : Json → List Char
  | .null => "null".data
  | .bool true => "true".data
  | .bool false => "false".data
  | .num lex => lex.data
  | .str s => quoteString s
  | .arr xs => '[' :: joinComma (stringifyList xs) ++ [']']
  | .obj fs => '\x7b' :: joinComma (stringifyFields fs) ++ ['\x7d']

def stringifyList : List Json → List (List Char)
  | [] => []
  | v :: rest => stringifyVal v :: stringifyList rest

def stringifyFields : List (String × Json) → List (List Char)
  | [] => []
  | (k, v) :: rest => (quoteString k ++ ':' :: stringifyVal v) :: stringifyFields rest

end

def Json.stringify (j : Json) : String :=
  String.mk (stringifyVal j)

/-- A JSON number denotes zero iff its mantissa has no nonzero digit. -/
def numLexIsZero (lex : String) : Bool :=
  (lex.data.takeWhile (fun c => c != 'e' && c != 'E')).all
    (fun c => !(c.isDigit && c != '0'))

/-- JavaScript truthiness of a JSON value (`NaN`/`undefined` cannot arise from
`JSON.parse`). -/
def Json.truthy : Json → Bool
  | .null => false
  | .bool b => b
  | .num lex => !numLexIsZero lex
  | .str s => !s.isEmpty
  | .arr _ => true
  | .obj _ => true

def lookupField : List (String × Json) → String → Option Json
  | [], _ => none
  | (k, v) :: rest, key => if k = key then some v else lookupField rest key

/-- JavaScript property access `j.key`: `none` models `undefined` (which is
what access on any non-object JSON value yields for our keys). -/
def Json.getField : Json → String → Option Json
  | .obj fs, key => lookupField fs key
  | _, _ => none

/-! ## The `VOICE:...|||TEXT:...` wire pattern

`raw.match(/^VOICE:([\s\S]*?)\|\|\|TEXT:([\s\S]*)$/)`: group 1 is non-greedy,
so the split happens at the first occurrence of `|||TEXT:`. -/

/-- Split at the first occurrence of `sep` (`sep` nonempty in all uses):
returns the part before it and the part after it. -/
def splitOnFirst (sep : List Char) : List Char → Option (List Char × List Char)
  | [] => none
  | c :: cs =>
    if sep.isPrefixOf (c :: cs) then some ([], (c :: cs).drop sep.length)
    else
      match splitOnFirst sep cs with
      | some (pre, post) => some (c :: pre, post)
      | none => none

/-- Model of `raw.match(/^VOICE:([\s\S]*?)\|\|\|TEXT:([\s\S]*)$/)`:
`some (group1, group2)` on a match. -/
def voiceTextMatch (raw : String) : Option (String × String) :=
  if ['V', 'O', 'I', 'C', 'E', ':'].isPrefixOf raw.data then
    match splitOnFirst ['|', '|', '|', 'T', 'E', 'X', 'T', ':'] (raw.data.drop 6) with
    | some (pre, post) => some (String.mk pre, String.mk post)
    | none => none
  else none

/-- JavaScript `String.prototype.trim` whitespace (ASCII part; the verified
inputs contain no exotic Unicode spaces). -/
def jsTrimWs (c : Char) : Bool :=
  " \t\n\r\x0b\x0c".data.contains c

/-- Model of `s.trim()`. -/
def jsTrim (s : String) : String :=
  String.mk (((s.data.dropWhile jsTrimWs).reverse.dropWhile jsTrimWs).reverse)

/-! ## Display-Text Extractor

`displayMessages` map body in `src/components/session-view.tsx` (lines
125-150) and `src/unnamed/part_000` (lines 133-159): for a string message, try
`JSON.parse` and return `parsed.voice_output` when `parsed &&
parsed.voice_output` (truthiness); else on a `VOICE:...|||TEXT:...` match
return group 1 trimmed; else the raw string unchanged.  (part_000 runs the
identical JSON attempt twice; the composition is the same function.) -/

/-- Fallback after the JSON attempt: the `VOICE|||TEXT` pattern, else identity. -/
def voiceFallback (raw : String) : Json :=
  match voiceTextMatch raw with
  | some (g1, _) => .str (jsTrim g1)
  | none => .str raw

/-- The display-text extractor.  The result is the JavaScript value stored into
the displayed message's `message` field (`parsed.voice_output` need not be a
string, hence `Json`). -/
def displayText (raw : String) : Json :=
  match Json.parse raw with
  | some parsed =>
    if parsed.truthy then
      match parsed.getField "voice_output" with
      | some v => if v.truthy then v else voiceFallback raw
      | none => voiceFallback raw
    else voiceFallback raw
  | none => voiceFallback raw

/-! ## Diagnostic-Payload Resolver, local-parse variant

`getLatestTextContent` in `src/unnamed/part_000` (lines 56-130). -/

/-- A received chat message as the resolver consumes it
(`msg.from?.isLocal` collapsed to one flag; the transport delivers string
message bodies). -/
structure ChatMsg where
  fromIsLocal : Bool
  message : String

/-- The shared shape of the first two attempts: `parsed && parsed.<key> &&
typeof parsed.<key>.content === 'string'`, returning `JSON.stringify(parsed.<key>)`. -/
def tryStructured (parsed : Json) (key : String) : Option String :=
  if parsed.truthy then
    match parsed.getField key with
    | some sub =>
      if sub.truthy then
        match sub.getField "content" with
        | some (.str _) => some (Json.stringify sub)
        | _ => none
      else none
    | none => none
  else none

/-- The resolver's per-message cascade: `diagnostic_report`, then legacy
`text_output`, then the `VOICE|||TEXT` pattern (whose TEXT segment is itself
tried as JSON with `diagnostic_report` or a bare string `content`, and
returned verbatim when it is not JSON), else the empty string. -/
def resolveMessage (raw : String) : String :=
  match
    (match Json.parse raw with
     | some parsed => tryStructured parsed "diagnostic_report"
     | none => none) with
  | some r => r
  | none =>
    match
      (match Json.parse raw with
       | some parsed => tryStructured parsed "text_output"
       | none => none) with
    | some r => r
    | none =>
      match voiceTextMatch raw with
      | some (_, textSegment) =>
        match Json.parse textSegment with
        | some parsedText =>
          match tryStructured parsedText "diagnostic_report" with
          | some r => r
          | none =>
            if parsedText.truthy then
              match parsedText.getField "content" with
              | some (.str _) => Json.stringify parsedText
              | _ => ""
            else ""
        | none => textSegment
      | none => ""

/-- `getLatestTextContent` (local-parse variant): filter to assistant
messages, take the last one, run the cascade; empty list gives `''`. -/
def getLatestTextContent (messages : List ChatMsg) : String :=
  let assistantMessages := messages.filter (fun m => !m.fromIsLocal)
  match assistantMessages.getLast? with
  | none => ""
  | some lastMessage => resolveMessage lastMessage.message

/-! ## Diagnostic panel parser

`parseStructured` / `legacyParse` in
`src/components/livekit/text-output-panel.tsx` (lines 22-43). -/

/-- The panel's structured payload.  `mainContent` keeps the JavaScript value
`parsed.content` (the `as string` cast in the source does not convert). -/
structure Payload where
  mainContent : Json
  webSources : List Json
  youtubeVideos : List Json
  structured : Bool

/-- `parseStructured`: JSON with truthy `content`; `web_sources` /
`youtube_videos` pass through only when they are arrays, else `[]`. -/
def parseStructured (raw : String) : Option Payload :=
  match Json.parse raw with
  | some parsed =>
    if parsed.truthy then
      match parsed.getField "content" with
      | some c =>
        if c.truthy then
          some
            { mainContent := c
              webSources :=
                match parsed.getField "web_sources" with
                | some (.arr xs) => xs
                | _ => []
              youtubeVideos :=
                match parsed.getField "youtube_videos" with
                | some (.arr xs) => xs
                | _ => []
              structured := true }
        else none
      | none => none
    else none
  | none => none

/-- `legacyParse`: plain text becomes the main content; empty text gives the
empty sentinel. -/
def legacyParse (content : String) : Payload :=
  if content = "" then
    { mainContent := .str "", webSources := [], youtubeVideos := [], structured := false }
  else
    { mainContent := .str content, webSources := [], youtubeVideos := [], structured := false }

/-- `const parsed = parseStructured(textContent) || legacyParse(textContent)`. -/
def panelParse (raw : String) : Payload :=
  match parseStructured raw with
  | some p => p
  | none => legacyParse raw

/-! ## Diagnostic-content formatter

`formatMainContent` in `src/components/livekit/text-output-panel.tsx` (lines
46-68): five global replacements applied in order.  Each regex replacement is
embedded as a deterministic left-to-right scanner equivalent to the JavaScript
engine's leftmost-match, advance-past-match behaviour. -/

/-- Replacement template of substitution (1): `**Label:**` header. -/
def headerTemplate (g : List Char) : List Char :=
  ("<h3 class=\"text-lg font-bold text-blue-600 dark:text-blue-400 mt-6 mb-3 border-b border-blue-200 dark:border-blue-800 pb-2\">").data
    ++ g ++ "</h3>".data

/-- Substitution (1), `/\*\*([^*]+):\*\*/g`.  A match at a position needs
`**`, then the maximal run of non-`*` characters, which must be at least two
long, end in `:` (the group is the run without that colon) and be followed by
`**`; on failure the scan advances one character. -/
def replaceHeaders (fuel : Nat) (cs : List Char) : List Char :=
  match fuel, cs with
  | 0, rest => rest
  | _ + 1, [] => []
  | f + 1, c :: cs' =>
    if ['*', '*'].isPrefixOf (c :: cs') then
      let rest := cs'.drop 1
      let run := rest.takeWhile (fun x => x != '*')
      let after := rest.dropWhile (fun x => x != '*')
      if decide (2 ≤ run.length) && (run.getLast? == some ':')
          && ['*', '*'].isPrefixOf after then
        headerTemplate run.dropLast ++ replaceHeaders f (after.drop 2)
      else c :: replaceHeaders f cs'
    else c :: replaceHeaders f cs'

/-- JavaScript `\s` (ASCII part; the formatter's verified inputs contain no
exotic Unicode spaces). -/
def jsRegexWs (c : Char) : Bool :=
  " \t\n\r\x0b\x0c".data.contains c

/-- Replacement template of substitution (2): the `Category` callout. -/
def calloutTemplate (g : List Char) : List Char :=
  ("<div class=\"bg-blue-50 dark:bg-blue-900/20 p-3 rounded-lg mb-4\"><strong class=\"text-blue-700 dark:text-blue-300\">Category:</strong> <span class=\"text-gray-800 dark:text-gray-200\">").data
    ++ g ++ "</span></div>".data

/-- Substitution (2), `/\*\*Category:\*\*\s*([^\n]+)/g`: after the literal,
greedy `\s*` takes the maximal whitespace run `w`; `([^\n]+)` then takes the
following non-newline characters if there are any, else backtracking hands the
non-newline tail of `w` to the group; no such tail means no match. -/
def replaceCallout (fuel : Nat) (cs : List Char) : List Char :=
  match fuel, cs with
  | 0, rest => rest
  | _ + 1, [] => []
  | f + 1, c :: cs' =>
    if "**Category:**".data.isPrefixOf (c :: cs') then
      let r := (c :: cs').drop 13
      let w := r.takeWhile jsRegexWs
      let r' := r.dropWhile jsRegexWs
      match r' with
      | d :: _ =>
        if d != '\n' then
          calloutTemplate (r'.takeWhile (fun x => x != '\n'))
            ++ replaceCallout f (r'.dropWhile (fun x => x != '\n'))
        else
          let t := (w.reverse.takeWhile (fun x => x != '\n')).reverse
          if t.isEmpty then c :: replaceCallout f cs'
          else calloutTemplate t ++ replaceCallout f r'
      | [] =>
        let t := (w.reverse.takeWhile (fun x => x != '\n')).reverse
        if t.isEmpty then c :: replaceCallout f cs'
        else calloutTemplate t ++ replaceCallout f r'
    else c :: replaceCallout f cs'

/-- Replacement template of substitution (3): a bullet row. -/
def bulletTemplate (g : List Char) : List Char :=
  ("<div class=\"flex items-start mb-3 p-2 hover:bg-gray-50 dark:hover:bg-gray-800/50 rounded\"><span class=\"text-blue-500 mr-3 mt-1 text-lg\">•</span><span class=\"text-gray-800 dark:text-gray-200 leading-relaxed\">").data
    ++ g ++ "</span></div>".data

/-- Substitution (3), `/^• (.+)$/gm`: per line (multiline anchors), a line
starting with a bullet and a space followed by at least one character is
replaced whole by the styled row. -/
def bulletLine (line : List Char) : List Char :=
  match line with
  | '•' :: ' ' :: rest =>
    if rest.isEmpty then line else bulletTemplate rest
  | _ => line

def replaceBullets (cs : List Char) : List Char :=
  List.intercalate ['\n'] ((cs.splitOn '\n').map bulletLine)

/-- Literal global replacement, leftmost-first and non-overlapping, as
`String.prototype.replace` with a literal-only global regex (`pat` nonempty). -/
def replaceAllLit (fuel : Nat) (pat rep : List Char) (cs : List Char) : List Char :=
  match fuel, cs with
  | 0, rest => rest
  | _ + 1, [] => []
  | f + 1, c :: cs' =>
    if pat.isPrefixOf (c :: cs') then
      rep ++ replaceAllLit f pat rep ((c :: cs').drop pat.length)
    else c :: replaceAllLit f pat rep cs'

/-- `formatMainContent`: the five substitutions in source order —
headers, Category callout, bullet rows, `\n\n` paragraph breaks, `\n` line
breaks. -/
def formatMainContent (content : String) : String :=
  let s1 := replaceHeaders (content.length + 1) content.data
  let s2 := replaceCallout (s1.length + 1) s1
  let s3 := replaceBullets s2
  let s4 := replaceAllLit (s3.length + 1) ['\n', '\n'] "<div class=\"my-4\"></div>".data s3
  let s5 := replaceAllLit (s4.length + 1) ['\n'] "<br>".data s4
  String.mk s5

/-- Decidable substring occurrence, used to state what markup an output
contains. -/
def listContains (pat : List Char) : List Char → Bool
  | [] => pat.isEmpty
  | c :: cs => pat.isPrefixOf (c :: cs) || listContains pat cs

def containsSub (s pat : String) : Bool :=
  listContains pat.data s.data

/-! ## Remote-fetch variant: `fetchDiagnosticData`

`src/components/session-view.tsx` lines 52-84.  The network is modelled by the
outcome the `fetch` call produced; the function's effect on the held
`diagnosticData` state is the returned string. -/

/-- Outcome of the `fetch` + `response.json()` pair: a network error (rejected
promise), or a response with its `ok` flag and its body (`none` when the body
is not valid JSON, making `response.json()` throw — caught by the same
`catch`). -/
inductive FetchOutcome where
  | networkError
  | response (ok : Bool) (body : Option Json)

/-- State transition of `fetchDiagnosticData` on the held payload: on an ok
response whose JSON body has a truthy `data` field the held string becomes
`JSON.stringify(result.data)`; every other outcome leaves it unchanged. -/
def fetchDiagnosticData (held : String) (o : FetchOutcome) : String :=
  match o with
  | .networkError => held
  | .response ok body? =>
    if ok then
      match body? with
      | some result =>
        match result.getField "data" with
        | some d => if d.truthy then Json.stringify d else held
        | none => held
      | none => held
    else held

/-! ## Connection-details fetch

`fetchConnectionDetails` in `src/hooks/useConnectionDetails.ts` (lines 8-30).
A non-ok response throws `Error(await res.text())` inside the `try`; the
`catch` replaces every failure, network errors included, by the one generic
`Error('Error fetching connection details!')`. -/

/-- Outcome of the underlying HTTP request: a network error carrying its cause
text, or a response with its `ok` flag and body text. -/
inductive HttpOutcome where
  | networkError (cause : String)
  | response (ok : Bool) (body : String)

/-- The fixed user-facing message of the error thrown to the caller. -/
def connDetailsErrorMsg : String := "Error fetching connection details!"

/-- `fetchConnectionDetails` as a function of the HTTP outcome: `Except`
models throw vs. return of the parsed JSON connection descriptor. -/
def fetchConnectionDetails (o : HttpOutcome) : Except String Json :=
  match o with
  | .networkError _ => .error connDetailsErrorMsg
  | .response ok body =>
    if ok then
      match Json.parse body with
      | some j => .ok j
      | none => .error connDetailsErrorMsg
    else .error connDetailsErrorMsg

/-! ## Session lifecycle guard

The `useEffect` at `src/components/session-view.tsx` lines 152-184 (identical
in `src/unnamed/part_000` lines 161-193).  Whenever a dependency
(`agentState`, `sessionStarted`, `room`) changes, React first runs the
previous effect's cleanup (`clearTimeout`) and then the effect body, which —
when the session is started — schedules one 10 000 ms timer whose callback
closes over the `agentState` current at scheduling time.  The callback, when
it fires, shows a one-shot notice and disconnects the room unless the
captured state is ready.  Time is in milliseconds. -/

/-- LiveKit agent states. -/
inductive AgentState where
  | disconnected
  | connecting
  | initializing
  | listening
  | thinking
  | speaking
deriving DecidableEq

/-- `isAgentAvailable` (session-view.tsx lines 22-24). -/
def isAgentAvailable (agentState : AgentState) : Bool :=
  agentState == .listening || agentState == .thinking || agentState == .speaking

/-- The two notice wordings of the timeout toast. -/
inductive Notice where
  | didNotJoin
  | didNotInit
deriving DecidableEq

/-- `'Agent did not join the room. '` when the captured state is still
`connecting`, else `'Agent connected but did not complete initializing. '`. -/
def noticeFor (s : AgentState) : Notice :=
  if s = .connecting then .didNotJoin else .didNotInit

/-- Guard-relevant state of one mounted session view: the clock, the effect's
dependencies, the at-most-one pending timer (fire time and captured agent
state), room connection and the notices shown so far. -/
structure GuardSys where
  now : Nat
  sessionStarted : Bool
  agentState : AgentState
  timer : Option (Nat × AgentState)
  connected : Bool
  notices : List Notice

/-- The timer callback: with a non-ready captured state it shows the toast and
calls `room.disconnect()`; a ready captured state does nothing.  Either way
the timer is spent. -/
def fireTimer (sys : GuardSys) : GuardSys :=
  match sys.timer with
  | some (_, captured) =>
    if isAgentAvailable captured then { sys with timer := none }
    else
      { sys with
        timer := none
        notices := sys.notices ++ [noticeFor captured]
        connected := false }
  | none => sys

/-- Advance the clock to `t`, letting a pending timer due by then fire. -/
def advanceTo (sys : GuardSys) (t : Nat) : GuardSys :=
  let sys' :=
    match sys.timer with
    | some (ft, _) => if ft ≤ t then fireTimer sys else sys
    | none => sys
  { sys' with now := t }

/-- One effect (re-)run: the previous cleanup clears the pending timer; the
body schedules a fresh 10 s timer capturing the current `agentState` when the
session is started. -/
def effectRun (sys : GuardSys) : GuardSys :=
  if sys.sessionStarted then
    { sys with timer := some (sys.now + 10000, sys.agentState) }
  else { sys with timer := none }

/-- An `agentState` dependency change at time `t`: time advances (a timer
already due fires first), the state updates, the effect re-runs. -/
def agentChange (sys : GuardSys) (t : Nat) (s : AgentState) : GuardSys :=
  effectRun { advanceTo sys t with agentState := s }

/-- The session is marked started at time 0 with the agent in state `s0`. -/
def sessionStart (s0 : AgentState) : GuardSys :=
  effectRun
    { now := 0
      sessionStarted := true
      agentState := s0
      timer := none
      connected := true
      notices := [] }

/-- Component teardown at time `t`: the scoped cleanup cancels the timer. -/
def teardown (sys : GuardSys) (t : Nat) : GuardSys :=
  { advanceTo sys t with timer := none }

/-! ## Concrete inputs used by the claims -/

/-- The assistant message of the structured-payload scenario:
`{"diagnostic_report":{"content":"X","web_sources":[{"title":"T","url":"U"}]}}`. -/
def diagReportMsg : String :=
  "\x7b\"diagnostic_report\":\x7b\"content\":\"X\",\"web_sources\":[\x7b\"title\":\"T\",\"url\":\"U\"\x7d]\x7d\x7d"

/-- The dual-channel message `VOICE:Hi there|||TEXT:{"content":"Detail"}`. -/
def voiceTextMsg : String :=
  "VOICE:Hi there|||TEXT:\x7b\"content\":\"Detail\"\x7d"

/-- A plain assistant message that fails every parse rule of the resolver. -/
def plainFollowUp : String := "Thanks, anything else?"

/-- A JSON message whose `voice_output` field is the empty string. -/
def emptyVoiceMsg : String := "\x7b\"voice_output\":\"\"\x7d"

/-! ## Helper lemmas -/

/-- A JSON value with any readable field is an object, hence truthy. -/
theorem truthy_of_getField_some (j : Json) (k : String) (v : Json)
    (h : j.getField k = some v) : j.truthy = true := by
  cases j <;> simp_all [Json.getField, Json.truthy]

/-! ## Claims -/

/-- C5 (amended): for every string `s` that is valid JSON whose `voice_output`
field is a non-empty string, the display-text extractor returns exactly that
field's value.  (The source tests `parsed && parsed.voice_output`, i.e.
truthiness, so the value must be non-empty; see `c5_empty_voice_counterexample`.) -/
theorem displayText_returns_voice_output (s v : String) (j : Json)
    (hp : Json.parse s = some j)
    (hf : j.getField "voice_output" = some (Json.str v))
    (hv : v ≠ "") :
    displayText s = Json.str v := by
  have hv' : v.isEmpty = false := by
    rcases h : v.isEmpty with _ | _
    · rfl
    · exact absurd (String.isEmpty_iff v |>.mp h) hv
  cases j with
  | obj fs => simp [displayText, hp, Json.truthy, hf, hv']
  | null => simp [Json.getField] at hf
  | bool b => simp [Json.getField] at hf
  | num lex => simp [Json.getField] at hf
  | str s' => simp [Json.getField] at hf
  | arr xs => simp [Json.getField] at hf

/-- C5 witness: the amended theorem applied to `{"voice_output":"hello"}`. -/
theorem displayText_returns_voice_output_witness :
    Json.parse "\x7b\"voice_output\":\"hello\"\x7d"
        = some (Json.obj [("voice_output", Json.str "hello")])
    ∧ displayText "\x7b\"voice_output\":\"hello\"\x7d" = Json.str "hello" :=
  ⟨rfl,
    displayText_returns_voice_output _ "hello" (Json.obj [("voice_output", Json.str "hello")])
      rfl rfl (by decide)⟩

/-- C5 counterexample: `{"voice_output":""}` is valid JSON with a string
`voice_output` field, but the extractor does not return that field's value
(the truthiness test fails and the raw string falls through unchanged). -/
theorem c5_empty_voice_counterexample :
    displayText emptyVoiceMsg ≠ Json.str "" ∧ displayText emptyVoiceMsg = Json.str emptyVoiceMsg := by
  constructor
  · have h2 : displayText emptyVoiceMsg = Json.str emptyVoiceMsg := rfl
    rw [h2]
    intro h
    injection h with h3
    exact absurd h3 (by decide)
  · rfl

/-- C6: for the last assistant message
`{"diagnostic_report":{"content":"X","web_sources":[{"title":"T","url":"U"}]}}`,
the local-parse resolver composed with the panel parser yields `mainContent`
`"X"` and `webSources` `[{title:"T",url:"U"}]`. -/
theorem resolver_panel_structured_payload :
    (panelParse (getLatestTextContent [⟨false, diagReportMsg⟩])).mainContent = Json.str "X"
    ∧ (panelParse (getLatestTextContent [⟨false, diagReportMsg⟩])).webSources
        = [Json.obj [("title", Json.str "T"), ("url", Json.str "U")]]
    ∧ (panelParse (getLatestTextContent [⟨false, diagReportMsg⟩])).youtubeVideos = [] :=
  ⟨rfl, rfl, rfl⟩

/-- C7: for the last assistant message `VOICE:Hi there|||TEXT:{"content":"Detail"}`,
the resolver composed with the panel parser yields `mainContent` `"Detail"`:
the JSON reading of the TEXT segment wins over returning it as plain text. -/
theorem resolver_panel_voice_text_json :
    getLatestTextContent [⟨false, voiceTextMsg⟩] = "\x7b\"content\":\"Detail\"\x7d"
    ∧ (panelParse (getLatestTextContent [⟨false, voiceTextMsg⟩])).mainContent
        = Json.str "Detail" :=
  ⟨rfl, rfl⟩

/-- C8: for every string that is not valid JSON and does not match the
`VOICE:...|||TEXT:...` pattern, the display-text extractor returns the string
unchanged.  (The extractor is a total function of the model — parse errors are
swallowed by the `Option`, so it never throws.) -/
theorem displayText_identity (s : String)
    (hp : Json.parse s = none) (hv : voiceTextMatch s = none) :
    displayText s = Json.str s := by
  simp [displayText, hp, voiceFallback, hv]

/-- C8 witness: the identity theorem applied to the plain string `hello`. -/
theorem displayText_identity_witness :
    Json.parse "hello" = none ∧ voiceTextMatch "hello" = none
    ∧ displayText "hello" = Json.str "hello" :=
  ⟨rfl, rfl, displayText_identity "hello" rfl rfl⟩

set_option maxRecDepth 100000

/-- The diagnostic-formatting scenario input
`"**Category:** Network\n• Check cable\n\nNext"`. -/
def c1input : String := "**Category:** Network\n• Check cable\n\nNext"

/-- C1 counterexample: on the scenario input the pipeline produces no
highlighted callout block.  The callout replacement is the only substitution
whose markup carries the classes `bg-blue-50` / `bg-blue-900/20`, and neither
occurs in the output: substitution (1) (`**Label:**` headers) runs first and
always consumes the `**Category:**` token that substitution (2) would need. -/
theorem c1_no_callout_counterexample :
    (containsSub (formatMainContent c1input) "bg-blue-50"
      || containsSub (formatMainContent c1input) "bg-blue-900/20") = false := rfl

/-- C1 (amended): on the scenario input the ordered substitution pipeline
produces a styled header block for the Category line (not a callout — the
header substitution shadows the callout one), a styled bullet row for
`Check cable`, and a visual paragraph break before `Next`. -/
theorem c1_formatting :
    formatMainContent c1input
      = "<h3 class=\"text-lg font-bold text-blue-600 dark:text-blue-400 mt-6 mb-3 border-b border-blue-200 dark:border-blue-800 pb-2\">Category</h3> Network<br><div class=\"flex items-start mb-3 p-2 hover:bg-gray-50 dark:hover:bg-gray-800/50 rounded\"><span class=\"text-blue-500 mr-3 mt-1 text-lg\">•</span><span class=\"text-gray-800 dark:text-gray-200 leading-relaxed\">Check cable</span></div><div class=\"my-4\"></div>Next"
    ∧ containsSub (formatMainContent c1input) "pb-2\">Category</h3>" = true
    ∧ containsSub (formatMainContent c1input)
        "leading-relaxed\">Check cable</span></div>" = true
    ∧ containsSub (formatMainContent c1input) "<div class=\"my-4\"></div>Next" = true :=
  ⟨rfl, rfl, rfl, rfl⟩

/-- C2: evaluation at the failing input.  After the assistant message
`diagReportMsg` the resolver/panel pipeline shows `mainContent = "X"`; when a
plain follow-up message that fails every parse rule becomes the newest
assistant message, the resolver returns `''` as specified, but the panel —
a pure function of that string, with no state holding the last good payload —
renders the empty sentinel: `mainContent` IS cleared, contradicting the
persistence the source's own comment promises (`part_000` line 128: return
empty string "so diagnostics panel can keep previous content"). -/
theorem panel_clears_on_unparsable_followup :
    getLatestTextContent [⟨false, diagReportMsg⟩]
      = "\x7b\"content\":\"X\",\"web_sources\":[\x7b\"title\":\"T\",\"url\":\"U\"\x7d]\x7d"
    ∧ (panelParse (getLatestTextContent [⟨false, diagReportMsg⟩])).mainContent = Json.str "X"
    ∧ getLatestTextContent [⟨false, diagReportMsg⟩, ⟨false, plainFollowUp⟩] = ""
    ∧ (panelParse
        (getLatestTextContent [⟨false, diagReportMsg⟩, ⟨false, plainFollowUp⟩])).mainContent
      = Json.str "" :=
  ⟨rfl, rfl, rfl, rfl⟩

/-- C3: lifecycle guard with the 10 000 ms timeout.  (a) If the agent state
transitions to `listening` strictly before 10 s after session start (and stays
ready), then at every later time no disconnect and no notice have fired — the
state change re-runs the effect, whose cleanup cancels the pending timer, and
the replacement timer captures a ready state, so its firing is a no-op.
(b) If the state is still `connecting` when the timeout elapses, the room is
disconnected and the one-shot `didNotJoin` notice is shown.  (c) Any other
non-ready captured state at timeout yields the `didNotInit` wording.
(d) An effect run while the session is started replaces the pending timer with
exactly one new 10 s timer — never two.  (e) Teardown cancels the timer. -/
theorem lifecycle_guard (s0 : AgentState) (t T : Nat) (ht : t < 10000) :
    ((advanceTo (agentChange (sessionStart s0) t .listening) T).connected = true
      ∧ (advanceTo (agentChange (sessionStart s0) t .listening) T).notices = [])
    ∧ (10000 ≤ T →
        (advanceTo (sessionStart .connecting) T).connected = false
          ∧ (advanceTo (sessionStart .connecting) T).notices = [.didNotJoin])
    ∧ (∀ s : AgentState, isAgentAvailable s = false → s ≠ .connecting → 10000 ≤ T →
        (advanceTo (sessionStart s) T).connected = false
          ∧ (advanceTo (sessionStart s) T).notices = [.didNotInit])
    ∧ (∀ sys : GuardSys, sys.sessionStarted = true →
        (effectRun sys).timer = some (sys.now + 10000, sys.agentState))
    ∧ (∀ sys : GuardSys, (teardown sys T).timer = none) := by
  refine ⟨?_, ?_, ?_, ?_, ?_⟩
  · have hnot : ¬ (10000 ≤ t) := by omega
    by_cases h2 : t + 10000 ≤ T <;>
      simp [sessionStart, agentChange, advanceTo, effectRun, hnot, h2, fireTimer,
        isAgentAvailable]
  · intro hT
    simp [sessionStart, advanceTo, effectRun, hT, fireTimer, isAgentAvailable, noticeFor]
  · intro s hs hsc hT
    simp [sessionStart, advanceTo, effectRun, hT, fireTimer, hs, noticeFor, hsc]
  · intro sys hss
    simp [effectRun, hss]
  · intro sys
    simp [teardown]

/-- C3 witness: the guard theorem at the spec's own scenario — a transition to
`listening` at t = 9.9 s (observed at 30 s: still connected, no notice) and a
session left in `connecting` (observed at 30 s: disconnected, `didNotJoin`),
plus `initializing` at timeout giving `didNotInit`. -/
theorem lifecycle_guard_witness :
    9900 < 10000
    ∧ ((advanceTo (agentChange (sessionStart .connecting) 9900 .listening) 30000).connected = true
        ∧ (advanceTo (agentChange (sessionStart .connecting) 9900 .listening) 30000).notices = [])
    ∧ ((advanceTo (sessionStart .connecting) 30000).connected = false
        ∧ (advanceTo (sessionStart .connecting) 30000).notices = [.didNotJoin])
    ∧ ((advanceTo (sessionStart .initializing) 30000).connected = false
        ∧ (advanceTo (sessionStart .initializing) 30000).notices = [.didNotInit]) :=
  ⟨by decide,
    (lifecycle_guard .connecting 9900 30000 (by decide)).1,
    (lifecycle_guard .connecting 9900 30000 (by decide)).2.1 (by decide),
    (lifecycle_guard .connecting 9900 30000 (by decide)).2.2.1 .initializing
      (by decide) (by decide) (by decide)⟩

/-- C4: atomicity of the remote-fetch update.  On an ok response whose body
carries a truthy (non-empty) `data` field, the held diagnostic payload is
replaced by `JSON.stringify(data)`; on a network error, a non-ok response, an
unparseable body, an absent `data` field, or a falsy `data` field, the held
payload is exactly unchanged — and no variant surfaces an error to the user
(the function is total on `FetchOutcome`). -/
theorem fetch_diag_atomic (held : String) :
    (∀ result d, result.getField "data" = some d → d.truthy = true →
        fetchDiagnosticData held (.response true (some result)) = Json.stringify d)
    ∧ fetchDiagnosticData held .networkError = held
    ∧ (∀ body, fetchDiagnosticData held (.response false body) = held)
    ∧ (∀ result, result.getField "data" = none →
        fetchDiagnosticData held (.response true (some result)) = held)
    ∧ (∀ result d, result.getField "data" = some d → d.truthy = false →
        fetchDiagnosticData held (.response true (some result)) = held)
    ∧ fetchDiagnosticData held (.response true none) = held := by
  refine ⟨?_, rfl, fun _ => rfl, ?_, ?_, rfl⟩
  · intro result d hd ht
    simp [fetchDiagnosticData, hd, ht]
  · intro result hd
    simp [fetchDiagnosticData, hd]
  · intro result d hd ht
    simp [fetchDiagnosticData, hd, ht]

/-- C4 witness: a successful fetch with `{"data":{"content":"hi"}}` replaces
the held payload with the serialized `data`; a network error keeps it. -/
theorem fetch_diag_atomic_witness :
    (Json.obj [("data", Json.obj [("content", Json.str "hi")])]).getField "data"
        = some (Json.obj [("content", Json.str "hi")])
    ∧ (Json.obj [("content", Json.str "hi")]).truthy = true
    ∧ fetchDiagnosticData "prev"
        (.response true (some (Json.obj [("data", Json.obj [("content", Json.str "hi")])])))
      = "\x7b\"content\":\"hi\"\x7d"
    ∧ fetchDiagnosticData "prev" .networkError = "prev" :=
  ⟨rfl, rfl,
    ((fetch_diag_atomic "prev").1 (Json.obj [("data", Json.obj [("content", Json.str "hi")])])
        (Json.obj [("content", Json.str "hi")]) rfl rfl).trans rfl,
    (fetch_diag_atomic "prev").2.1⟩

/-- C9: the connection-details fetch throws the fixed generic message
`'Error fetching connection details!'` on every failure — network error (for
any underlying cause), non-2xx response (for any body text), or unparseable
2xx body — so the surfaced message never incorporates the underlying cause;
on a 2xx response with a JSON body it returns the parsed descriptor. -/
theorem conn_details_fetch (cause body : String) :
    fetchConnectionDetails (.networkError cause) = .error connDetailsErrorMsg
    ∧ fetchConnectionDetails (.response false body) = .error connDetailsErrorMsg
    ∧ (Json.parse body = none →
        fetchConnectionDetails (.response true body) = .error connDetailsErrorMsg)
    ∧ (∀ j, Json.parse body = some j →
        fetchConnectionDetails (.response true body) = .ok j) := by
  refine ⟨rfl, rfl, ?_, ?_⟩
  · intro hb
    simp [fetchConnectionDetails, hb]
  · intro j hb
    simp [fetchConnectionDetails, hb]

/-- C9 witness: a 500 response whose body text differs from the generic
message yields exactly the generic message, and a 2xx JSON body is returned
parsed. -/
theorem conn_details_fetch_witness :
    fetchConnectionDetails (.networkError "ECONNREFUSED")
      = .error connDetailsErrorMsg
    ∧ fetchConnectionDetails (.response false "upstream exploded")
      = .error connDetailsErrorMsg
    ∧ Json.parse "\x7b\"serverUrl\":\"wss://x\"\x7d"
      = some (Json.obj [("serverUrl", Json.str "wss://x")])
    ∧ fetchConnectionDetails (.response true "\x7b\"serverUrl\":\"wss://x\"\x7d")
      = .ok (Json.obj [("serverUrl", Json.str "wss://x")]) :=
  ⟨(conn_details_fetch "ECONNREFUSED" "upstream exploded").1,
    (conn_details_fetch "ECONNREFUSED" "upstream exploded").2.1,
    rfl,
    (conn_details_fetch "ECONNREFUSED" "\x7b\"serverUrl\":\"wss://x\"\x7d").2.2.2 _ rfl⟩

/-- C10: the panel's payload always has list-valued `webSources` and
`youtubeVideos` (they are `List Json` by construction); whenever the input is
not structured (not JSON, JSON without truthy `content`, or the empty string)
both are `[]`, and in the structured case a missing or non-array
`web_sources` / `youtube_videos` field is normalized to `[]`. -/
theorem panel_lists_invariant (raw : String) :
    (parseStructured raw = none →
        (panelParse raw).webSources = [] ∧ (panelParse raw).youtubeVideos = [])
    ∧ (∀ j, Json.parse raw = some j →
        (∀ xs, j.getField "web_sources" ≠ some (Json.arr xs)) →
        (panelParse raw).webSources = [])
    ∧ (∀ j, Json.parse raw = some j →
        (∀ xs, j.getField "youtube_videos" ≠ some (Json.arr xs)) →
        (panelParse raw).youtubeVideos = []) := by
  refine ⟨?_, ?_, ?_⟩
  · intro h
    simp only [panelParse, h]
    constructor <;> (unfold legacyParse; split <;> rfl)
  · intro j hj hw
    unfold panelParse
    cases hps : parseStructured raw with
    | none =>
      dsimp only
      unfold legacyParse
      split <;> rfl
    | some p =>
      unfold parseStructured at hps
      rw [hj] at hps
      dsimp only at hps
      split at hps
      · split at hps
        · split at hps
          · injection hps with hp
            subst hp
            dsimp only
            split
            · rename_i xs heq
              exact absurd heq (hw xs)
            · rfl
          · cases hps
        · cases hps
      · cases hps
  · intro j hj hw
    unfold panelParse
    cases hps : parseStructured raw with
    | none =>
      dsimp only
      unfold legacyParse
      split <;> rfl
    | some p =>
      unfold parseStructured at hps
      rw [hj] at hps
      dsimp only at hps
      split at hps
      · split at hps
        · split at hps
          · injection hps with hp
            subst hp
            dsimp only
            split
            · rename_i xs heq
              exact absurd heq (hw xs)
            · rfl
          · cases hps
        · cases hps
      · cases hps

/-- C10 witness: `{"content":"hi"}` is structured JSON with truthy `content`
and no `web_sources` / `youtube_videos` fields; both lists come out empty. -/
theorem panel_lists_invariant_witness :
    Json.parse "\x7b\"content\":\"hi\"\x7d" = some (Json.obj [("content", Json.str "hi")])
    ∧ (panelParse "\x7b\"content\":\"hi\"\x7d").webSources = []
    ∧ (panelParse "\x7b\"content\":\"hi\"\x7d").youtubeVideos = [] :=
  ⟨rfl,
    (panel_lists_invariant _).2.1 (Json.obj [("content", Json.str "hi")]) rfl
      (fun _ h => Option.noConfusion h),
    (panel_lists_invariant _).2.2 (Json.obj [("content", Json.str "hi")]) rfl
      (fun _ h => Option.noConfusion h)⟩
